import Mathlib

/-!
Shallow embedding of `src/chat_app.js`, a browser-side chat client that
talks JSON text frames over a single WebSocket. Module-level mutable
variables become a `ClientState` record, DOM mutations and socket sends
become an explicit `Effect` list, `setTimeout`/`clearTimeout` become
scheduled callbacks with a generation counter, and the host `JSON.parse`
is modelled by an executable JSON parser (numbers restricted to
integers, which covers every frame the script exchanges).
-/

namespace ChatApp

/-- JSON values as produced by `JSON.parse`. Numbers are modelled as
integers: the wire protocol of the script only ever carries strings,
booleans and the integer `count`. -/
inductive Json where
  | null : Json
  | bool (b : Bool) : Json
  | num (n : Int) : Json
  | str (s : String) : Json
  | arr (elems : List Json) : Json
  | obj (fields : List (String × Json)) : Json

/-- Property lookup on a parsed JSON object: `JSON.parse` keeps the last
of duplicate keys, so the lookup returns the last binding. Property
access on a non-object yields `undefined`, modelled as `none`. -/
def lookupField : List (String × Json) → String → Option Json
  | [], _ => none
  | (k, v) :: rest, key =>
    match lookupField rest key with
    | some r => some r
    | none => if k == key then some v else none

/-- Field access `data.k` on a JSON value. -/
def Json.getField (j : Json) (k : String) : Option Json :=
  match j with
  | .obj fs => lookupField fs k
  | _ => none

/-- JavaScript string coercion of a JSON value, as used by template
literals: `undefined` prints as "undefined", arrays join their elements
with commas, objects print as "[object Object]". -/
def displayStrJ : Json → String
  | .null => "null"
  | .bool b => if b then "true" else "false"
  | .num n => toString n
  | .str s => s
  | .arr xs => String.intercalate "," (xs.attach.map fun x => displayStrJ x.1)
  | .obj _ => "[object Object]"
decreasing_by
  simp_wf
  have := List.sizeOf_lt_of_mem x.2
  omega

/-- String coercion of a possibly-undefined property. -/
def displayStr : Option Json → String
  | none => "undefined"
  | some j => displayStrJ j

/-- JavaScript strict equality `v === s` between a possibly-undefined
property value and a string: true exactly when the value is that string. -/
def strictEqStr (j : Option Json) (s : String) : Bool :=
  match j with
  | some (.str t) => t == s
  | _ => false

/-- JavaScript truthiness of a possibly-undefined property value. -/
def truthy : Option Json → Bool
  | none => false
  | some .null => false
  | some (.bool b) => b
  | some (.num n) => n != 0
  | some (.str s) => s != ""
  | some (.arr _) => true
  | some (.obj _) => true

/-- JSON whitespace. -/
def isWsChar (c : Char) : Bool :=
  c == ' ' || c == '\t' || c == '\n' || c == '\r'

/-- Drop leading JSON whitespace. -/
def skipWs (cs : List Char) : List Char := cs.dropWhile isWsChar

/-- Value of a hex digit, if any, computed on the scalar value. -/
def hexVal (c : Char) : Option Nat :=
  let n := c.toNat
  if 48 ≤ n && n ≤ 57 then some (n - 48)
  else if 97 ≤ n && n ≤ 102 then some (n - 87)
  else if 65 ≤ n && n ≤ 70 then some (n - 55)
  else none

/-- Simple escape sequences of JSON strings. -/
def escSimple : Char → Option Char
  | 't' => some '\t'
  | 'n' => some '\n'
  | 'r' => some '\r'
  | 'b' => some (Char.ofNat 8)
  | 'f' => some (Char.ofNat 12)
  | '"' => some '"'
  | '/' => some '/'
  | '\\' => some '\\'
  | _ => none

/-- Parse the body of a JSON string after the opening quote, returning
the string and the input after the closing quote. -/
def parseStringBody : List Char → Option (String × List Char)
  | [] => none
  | '"' :: rest => some ("", rest)
  | '\\' :: 'u' :: h1 :: h2 :: h3 :: h4 :: rest =>
    match hexVal h1, hexVal h2, hexVal h3, hexVal h4 with
    | some v1, some v2, some v3, some v4 =>
      match parseStringBody rest with
      | some (s, r) =>
        some (String.singleton (Char.ofNat (v1 * 4096 + v2 * 256 + v3 * 16 + v4)) ++ s, r)
      | none => none
    | _, _, _, _ => none
  | '\\' :: e :: rest =>
    match escSimple e with
    | some c =>
      match parseStringBody rest with
      | some (s, r) => some (String.singleton c ++ s, r)
      | none => none
    | none => none
  | c :: rest =>
    if c == '\\' || c.toNat < 32 then none
    else
      match parseStringBody rest with
      | some (s, r) => some (String.singleton c ++ s, r)
      | none => none

/-- Numeric value of a digit list. -/
def digitsVal (ds : List Char) : Nat :=
  ds.foldl (fun acc c => acc * 10 + (c.toNat - '0'.toNat)) 0

/-- Parse a JSON integer literal (optional minus sign, digits). -/
def parseNumber (cs : List Char) : Option (Json × List Char) :=
  let core := fun (l : List Char) (neg : Bool) =>
    let ds := l.takeWhile Char.isDigit
    if ds.isEmpty then none
    else
      let v : Int := (digitsVal ds : Nat)
      some (Json.num (if neg then -v else v), l.dropWhile Char.isDigit)
  match cs with
  | '-' :: rest => core rest true
  | _ => core cs false

mutual

/-- Parse one JSON value. The fuel bounds nesting depth. -/
def parseValue : Nat → List Char → Option (Json × List Char)
  | 0, _ => none
  | fuel + 1, cs =>
    match skipWs cs with
    | [] => none
    | c :: rest =>
      if c == '"' then
        match parseStringBody rest with
        | some (s, r) => some (.str s, r)
        | none => none
      else if c == '{' then
        match skipWs rest with
        | '}' :: r => some (.obj [], r)
        | cs2 => parseMembers fuel cs2 []
      else if c == '[' then
        match skipWs rest with
        | ']' :: r => some (.arr [], r)
        | cs2 => parseItems fuel cs2 []
      else if c == 't' then
        match rest with
        | 'r' :: 'u' :: 'e' :: r => some (.bool true, r)
        | _ => none
      else if c == 'f' then
        match rest with
        | 'a' :: 'l' :: 's' :: 'e' :: r => some (.bool false, r)
        | _ => none
      else if c == 'n' then
        match rest with
        | 'u' :: 'l' :: 'l' :: r => some (.null, r)
        | _ => none
      else if c == '-' || c.isDigit then parseNumber (c :: rest)
      else none

/-- Parse the members of a JSON object after the opening brace. -/
def parseMembers : Nat → List Char → List (String × Json) → Option (Json × List Char)
  | 0, _, _ => none
  | fuel + 1, cs, acc =>
    match skipWs cs with
    | '"' :: rest =>
      match parseStringBody rest with
      | some (k, r1) =>
        match skipWs r1 with
        | ':' :: r2 =>
          match parseValue fuel r2 with
          | some (v, r3) =>
            match skipWs r3 with
            | ',' :: r4 => parseMembers fuel r4 (acc ++ [(k, v)])
            | '}' :: r4 => some (.obj (acc ++ [(k, v)]), r4)
            | _ => none
          | none => none
        | _ => none
      | none => none
    | _ => none

/-- Parse the items of a JSON array after the opening bracket. -/
def parseItems : Nat → List Char → List Json → Option (Json × List Char)
  | 0, _, _ => none
  | fuel + 1, cs, acc =>
    match parseValue fuel cs with
    | some (v, r1) =>
      match skipWs r1 with
      | ',' :: r2 => parseItems fuel r2 (acc ++ [v])
      | ']' :: r2 => some (.arr (acc ++ [v]), r2)
      | _ => none
    | none => none

end

/-- The host `JSON.parse`: parse a complete JSON document, rejecting
trailing garbage. Returns `none` where `JSON.parse` would throw. -/
def parseJson (s : String) : Option Json :=
  match parseValue (s.length + 1) s.data with
  | some (v, rest) => if skipWs rest = [] then some v else none
  | none => none

/-- The module-level mutable variables of the script (lines 1-4), plus
the bookkeeping needed to model `setTimeout`/`clearTimeout` for the
typing debounce: `typingGen` is bumped each time `typingTimeout` is
reassigned, so a fire event with a stale generation is a cleared timer.
`wsReady` is true exactly when `ws` is non-null and
`ws.readyState === WebSocket.OPEN`, the only way the script ever
inspects the socket handle. -/
structure ClientState where
  wsReady : Bool
  username : String
  isTyping : Bool
  typingGen : Nat
  typingPending : Bool
deriving DecidableEq, Repr

/-- The callbacks the script passes to `setTimeout`. -/
inductive Callback where
  | connectWS : Callback
  | typingFire (gen : Nat) : Callback
deriving DecidableEq, Repr

/-- Observable actions of the script: DOM mutations, socket sends
(`ws.send(JSON.stringify(m))` is modelled as sending the object `m`),
alerts, console logging and timer scheduling. -/
inductive Effect where
  | log (msg : String) : Effect
  | setStatusText (text : String) : Effect
  | setStatusClass (cls : String) : Effect
  | send (payload : Json) : Effect
  | alert (msg : String) : Effect
  | schedule (cb : Callback) (delayMs : Nat) : Effect
  | appendMessage (cls : String) (innerHtml : String) : Effect
  | scrollMessages : Effect
  | setTypingText (text : String) : Effect
  | showTypingIndicator : Effect
  | hideTypingIndicator : Effect
  | setUsersOnlineText (text : String) : Effect
  | hideUserSetup : Effect
  | showChatInput : Effect
  | focusMessageInput : Effect
  | clearMessageInput : Effect
  | addListeners : Effect
  | newWebSocket (url : String) : Effect

/-- The state at script load: `ws = null`, empty username, not typing,
no pending debounce timer. -/
def initState : ClientState :=
  { wsReady := false, username := "", isTyping := false
    typingGen := 0, typingPending := false }

/-- One step of `escapeHtml`: the browser serializes a text node by
replacing the markup-significant characters with entities. -/
def escapeChar (c : Char) : List Char :=
  if c = '&' then ['&', 'a', 'm', 'p', ';']
  else if c = '<' then ['&', 'l', 't', ';']
  else if c = '>' then ['&', 'g', 't', ';']
  else [c]

/-- Character-list version of `escapeHtml`. -/
def escapeList : List Char → List Char
  | [] => []
  | c :: cs => escapeChar c ++ escapeList cs

/-- The script's `escapeHtml` (lines 210-214): it assigns the text to a
detached div's `textContent` and reads back `innerHTML`, which is the
browser's HTML serialization of the text node, escaping every
occurrence of the characters &, < and > as entities. -/
def escapeHtml (s : String) : String := ⟨escapeList s.data⟩

/-- Inverse of the entity encoding, used to state that `escapeHtml`
loses no information. -/
def unescapeList : List Char → List Char
  | [] => []
  | '&' :: 'a' :: 'm' :: 'p' :: ';' :: r => '&' :: unescapeList r
  | '&' :: 'l' :: 't' :: ';' :: r => '<' :: unescapeList r
  | '&' :: 'g' :: 't' :: ';' :: r => '>' :: unescapeList r
  | c :: rest => c :: unescapeList rest

/-- JavaScript `String.prototype.trim` on the whitespace the app can
meet: drop leading and trailing whitespace characters. -/
def jsTrim (s : String) : String :=
  ⟨((s.data.dropWhile isWsChar).reverse.dropWhile isWsChar).reverse⟩

/-- The `updateConnectionStatus` function (lines 34-43). -/
def updateConnectionStatus (connected : Bool) : List Effect :=
  if connected then
    [.setStatusText "● Connected", .setStatusClass "connection-status status-connected"]
  else
    [.setStatusText "● Disconnected", .setStatusClass "connection-status status-disconnected"]

/-- The inner HTML template of `displayMessage` (lines 173-177): a
template literal whose slots are the author div (empty for own
messages), the escaped content, and the formatted time. -/
def messageInnerHtml (authorPart contentHtml timeStr : String) : String :=
  "\n                " ++ authorPart ++
  "\n                <div class=\"message-content\">" ++ contentHtml ++
  "</div>\n                <div class=\"message-time\">" ++ timeStr ++
  "</div>\n            "

/-- The `displayMessage` function (lines 161-181). `fmt` stands for the
host `new Date(..).toLocaleTimeString(..)` pipeline applied to the raw
`timestamp` property. -/
def displayMessage (fmt : Option Json → String) (st : ClientState) (data : Json) :
    List Effect :=
  let isOwn := strictEqStr (data.getField "username") st.username
  let cls := "message " ++ (if isOwn then "own" else "other")
  let time := fmt (data.getField "timestamp")
  let authorPart :=
    if !isOwn then
      "<div class=\"message-author\">" ++ displayStr (data.getField "username") ++ "</div>"
    else ""
  let contentHtml := escapeHtml (displayStr (data.getField "content"))
  [.appendMessage cls (messageInnerHtml authorPart contentHtml time), .scrollMessages]

/-- The `displaySystemMessage` function (lines 183-191): the text is
interpolated into the markup verbatim, with no escaping. -/
def displaySystemMessage (text : String) : List Effect :=
  [.appendMessage "message system" ("<div class=\"message-content\">" ++ text ++ "</div>"),
   .scrollMessages]

/-- The `updateUsersCount` function (lines 193-195). -/
def updateUsersCount (count : Option Json) : List Effect :=
  [.setUsersOnlineText ("👥 Users online: " ++ displayStr count)]

/-- The `handleTypingIndicator` function (lines 197-208): the indicator
is touched only when the frame's username differs (strictly) from the
local username. -/
def handleTypingIndicator (st : ClientState) (data : Json) : List Effect :=
  if !(strictEqStr (data.getField "username") st.username) then
    if truthy (data.getField "typing") then
      [.setTypingText (displayStr (data.getField "username") ++ " is typing..."),
       .showTypingIndicator]
    else [.hideTypingIndicator]
  else []

/-- The `handleMessage` dispatcher (lines 141-159): a switch on
`data.type` with no default action. No branch assigns any module-level
variable, so the state is returned unchanged. -/
def handleMessage (fmt : Option Json → String) (st : ClientState) (data : Json) :
    ClientState × List Effect :=
  let ty := data.getField "type"
  if strictEqStr ty "message" then (st, displayMessage fmt st data)
  else if strictEqStr ty "join" then
    (st, displaySystemMessage (displayStr (data.getField "username") ++ " joined the chat"))
  else if strictEqStr ty "leave" then
    (st, displaySystemMessage (displayStr (data.getField "username") ++ " left the chat"))
  else if strictEqStr ty "users_count" then (st, updateUsersCount (data.getField "count"))
  else if strictEqStr ty "typing" then (st, handleTypingIndicator st data)
  else (st, [])

/-- The `sendTypingStatus` function (lines 130-139): sends a typing
frame only when the socket is open, else does nothing at all. -/
def sendTypingStatus (st : ClientState) (typing : Bool) : ClientState × List Effect :=
  if st.wsReady then
    (st, [.send (.obj [("type", .str "typing"), ("username", .str st.username),
                       ("typing", .bool typing)])])
  else (st, [])

/-- The `sendMessage` function (lines 105-128). `inputValue` is the
message input's current value and `nowIso` the value of
`new Date().toISOString()`. On empty trimmed text or a non-open socket
it returns silently — no alert, no effect, no state change. -/
def sendMessage (st : ClientState) (inputValue nowIso : String) :
    ClientState × List Effect :=
  let messageText := jsTrim inputValue
  if messageText == "" || !st.wsReady then (st, [])
  else
    let sendEffs : List Effect :=
      [.send (.obj [("type", .str "message"), ("username", .str st.username),
                    ("content", .str messageText), ("timestamp", .str nowIso)]),
       .clearMessageInput]
    if st.isTyping then
      let r := sendTypingStatus { st with isTyping := false } false
      (r.1, sendEffs ++ r.2)
    else (st, sendEffs)

/-- The `joinChat` function (lines 45-78). `usernameValue` is the
username input's current value. -/
def joinChat (st : ClientState) (usernameValue nowIso : String) :
    ClientState × List Effect :=
  let entered := jsTrim usernameValue
  if entered == "" then (st, [.alert "Please enter a username"])
  else if st.wsReady then
    let st2 := { st with username := entered }
    (st2,
     [.send (.obj [("type", .str "join"), ("username", .str entered),
                   ("timestamp", .str nowIso)]),
      .hideUserSetup, .showChatInput, .focusMessageInput, .addListeners])
  else (st, [.alert "Not connected to server. Please wait and try again."])

/-- The input listener installed by `setupEventListeners` (lines
91-102): the first keystroke of a burst flips `isTyping` and sends
typing=true; every keystroke clears the pending debounce timer
(generation bump) and schedules a fresh 1000 ms one. -/
def onInput (st : ClientState) : ClientState × List Effect :=
  let r :=
    if !st.isTyping then sendTypingStatus { st with isTyping := true } true
    else (st, [])
  let gen := r.1.typingGen + 1
  ({ r.1 with typingGen := gen, typingPending := true },
   r.2 ++ [.schedule (.typingFire gen) 1000])

/-- Body of the debounce timer callback (lines 98-101): reset the
typing flag and send typing=false. -/
def typingTimeoutBody (st : ClientState) : ClientState × List Effect :=
  sendTypingStatus { st with isTyping := false } false

/-- Event-loop delivery of a typing-timer expiry: a cleared or
superseded timer (stale generation) never runs; a live one runs once
and is consumed. -/
def fireTyping (st : ClientState) (gen : Nat) : ClientState × List Effect :=
  if st.typingPending && gen == st.typingGen then
    typingTimeoutBody { st with typingPending := false }
  else (st, [])

/-- The `connectWebSocket` function (lines 7-32): allocates a fresh
socket (readyState CONNECTING, so not yet open) and installs the four
handlers modelled below as top-level functions. -/
def connectWebSocket (st : ClientState) : ClientState × List Effect :=
  ({ st with wsReady := false }, [.newWebSocket "ws://localhost:8765"])

/-- The `ws.onopen` handler (lines 11-14); the socket's readyState is
OPEN once this fires. -/
def ws_onopen (st : ClientState) : ClientState × List Effect :=
  ({ st with wsReady := true },
   .log "Connected to WebSocket server" :: updateConnectionStatus true)

/-- The `ws.onclose` handler (lines 21-26): unconditionally schedules
`connectWebSocket` after 3000 ms, with no state consulted and no
attempt counter anywhere in the program. -/
def ws_onclose (st : ClientState) : ClientState × List Effect :=
  ({ st with wsReady := false },
   .log "Disconnected from WebSocket server" ::
     updateConnectionStatus false ++ [.schedule .connectWS 3000])

/-- The `ws.onerror` handler (lines 28-31). -/
def ws_onerror (st : ClientState) : ClientState × List Effect :=
  (st, .log "WebSocket error" :: updateConnectionStatus false)

/-- The `ws.onmessage` handler (lines 16-19): `JSON.parse` then
dispatch, with no try/catch anywhere on the path, so a malformed
payload throws out of the handler before anything happens. -/
def ws_onmessage (fmt : Option Json → String) (st : ClientState) (raw : String) :
    Except String (ClientState × List Effect) :=
  match parseJson raw with
  | none => .error "SyntaxError: JSON.parse: unexpected token"
  | some d => .ok (handleMessage fmt st d)

/-- External events delivered by the browser event loop: socket events,
UI events carrying the relevant input-field values and the current
clock reading, and timer expiries. -/
inductive UiEvent where
  | wsOpenEv : UiEvent
  | wsCloseEv : UiEvent
  | wsErrorEv : UiEvent
  | wsMessageEv (raw : String) : UiEvent
  | joinClick (usernameValue nowIso : String) : UiEvent
  | inputEvent : UiEvent
  | enterKey (inputValue nowIso : String) : UiEvent
  | timerEv (cb : Callback) : UiEvent

/-- Dispatch one event to the script's handlers. A malformed inbound
payload throws out of `ws.onmessage` before any effect or assignment,
which the loop surfaces as no action. -/
def stepEv (fmt : Option Json → String) (st : ClientState) :
    UiEvent → ClientState × List Effect
  | .wsOpenEv => ws_onopen st
  | .wsCloseEv => ws_onclose st
  | .wsErrorEv => ws_onerror st
  | .wsMessageEv raw =>
    match ws_onmessage fmt st raw with
    | .ok r => r
    | .error _ => (st, [])
  | .joinClick u now => joinChat st u now
  | .inputEvent => onInput st
  | .enterKey v now => sendMessage st v now
  | .timerEv .connectWS => connectWebSocket st
  | .timerEv (.typingFire gen) => fireTyping st gen

/-- Run a sequence of events, accumulating effects. -/
def runEvents (fmt : Option Json → String) (st : ClientState) :
    List UiEvent → ClientState × List Effect
  | [] => (st, [])
  | e :: es =>
    let r1 := stepEv fmt st e
    let r2 := runEvents fmt r1.1 es
    (r2.1, r1.2 ++ r2.2)

/-- The debounce invariant: the local typing flag is set only while a
debounce timer is pending. -/
def TypingInv (st : ClientState) : Prop :=
  st.isTyping = true → st.typingPending = true

/-- The timers scheduled by an effect list, in order. -/
def schedulesOf (effs : List Effect) : List (Callback × Nat) :=
  effs.filterMap fun e =>
    match e with
    | .schedule cb d => some (cb, d)
    | _ => none

/-- The delay of the reconnect timer the close handler schedules,
extracted from the handler's own effects. -/
def reconnectDelay (st : ClientState) : Nat :=
  (((ws_onclose st).2.filterMap fun e =>
      match e with
      | .schedule .connectWS d => some d
      | _ => none).headD 0)

/-- Start time of the n-th connection attempt when attempt n stays up
for `up n` milliseconds before its close event, each close feeding the
reconnect timer the close handler schedules. -/
def attemptTime (t0 : Nat) (up : Nat → Nat) : Nat → Nat
  | 0 => t0
  | n + 1 => attemptTime t0 up n + up n + reconnectDelay initState

/-- The shapes of the outbound frames in the interface table: a join
frame with username and timestamp, a message frame with username,
content and timestamp, or a typing frame with username and a boolean
typing field — each a JSON object tagged by its `type` field. -/
def WellFormedFrame (p : Json) : Prop :=
  (∃ u ts, p = .obj [("type", .str "join"), ("username", .str u), ("timestamp", .str ts)]) ∨
  (∃ u c ts, p = .obj [("type", .str "message"), ("username", .str u),
                       ("content", .str c), ("timestamp", .str ts)]) ∨
  (∃ u b, p = .obj [("type", .str "typing"), ("username", .str u), ("typing", .bool b)])

/-- A concrete disconnected state with a joined user. -/
def discState : ClientState :=
  { wsReady := false, username := "alice", isTyping := false
    typingGen := 0, typingPending := false }

/-- A concrete open-socket state with a joined user. -/
def openState : ClientState :=
  { wsReady := true, username := "alice", isTyping := false
    typingGen := 0, typingPending := false }

/-- A trivial concrete stand-in for the time-formatting host call. -/
def fmt0 : Option Json → String := fun _ => "12:00"

theorem unescape_amp (t : List Char) :
    unescapeList ('&' :: 'a' :: 'm' :: 'p' :: ';' :: t) = '&' :: unescapeList t := rfl

theorem unescape_lt (t : List Char) :
    unescapeList ('&' :: 'l' :: 't' :: ';' :: t) = '<' :: unescapeList t := rfl

theorem unescape_gt (t : List Char) :
    unescapeList ('&' :: 'g' :: 't' :: ';' :: t) = '>' :: unescapeList t := rfl

theorem unescape_cons_of_ne (c : Char) (t : List Char) (h : ¬ c = '&') :
    unescapeList (c :: t) = c :: unescapeList t := by
  rw [unescapeList.eq_def]
  split <;> simp_all

/-- Unescaping undoes the entity encoding: `escapeHtml` loses no
information about the original text. -/
theorem unescape_escape (l : List Char) : unescapeList (escapeList l) = l := by
  induction l with
  | nil => rfl
  | cons c cs ih =>
    show unescapeList (escapeChar c ++ escapeList cs) = c :: cs
    by_cases h1 : c = '&'
    · subst h1
      simp [escapeChar, unescape_amp, ih]
    by_cases h2 : c = '<'
    · subst h2
      simp [escapeChar, unescape_lt, ih]
    by_cases h3 : c = '>'
    · subst h3
      simp [escapeChar, unescape_gt, ih]
    · simp [escapeChar, h1, h2, h3, unescape_cons_of_ne c _ h1, ih]

theorem lt_not_mem_escapeChar (c : Char) : ¬ '<' ∈ escapeChar c := by
  unfold escapeChar
  split_ifs with h1 h2 h3
  · decide
  · decide
  · decide
  · intro hmem
    simp only [List.mem_singleton] at hmem
    exact h2 hmem.symm

theorem gt_not_mem_escapeChar (c : Char) : ¬ '>' ∈ escapeChar c := by
  unfold escapeChar
  split_ifs with h1 h2 h3
  · decide
  · decide
  · decide
  · intro hmem
    simp only [List.mem_singleton] at hmem
    exact h3 hmem.symm

/-- The escaped text contains no raw markup-open character. -/
theorem lt_not_mem_escapeList (l : List Char) : ¬ '<' ∈ escapeList l := by
  induction l with
  | nil => simp [escapeList]
  | cons c cs ih =>
    simp only [escapeList, List.mem_append]
    rintro (hc | hc)
    · exact lt_not_mem_escapeChar c hc
    · exact ih hc

/-- The escaped text contains no raw markup-close character. -/
theorem gt_not_mem_escapeList (l : List Char) : ¬ '>' ∈ escapeList l := by
  induction l with
  | nil => simp [escapeList]
  | cons c cs ih =>
    simp only [escapeList, List.mem_append]
    rintro (hc | hc)
    · exact gt_not_mem_escapeChar c hc
    · exact ih hc

/-- C1: when a message frame with content `s` is displayed, the
message-content element receives exactly `escapeHtml s`; the escaping
replaces the characters &, < and > by their entities (and nothing
else, witnessed by the inverse `unescapeList` recovering `s`), so the
rendered content never contains unescaped markup from `s`. -/
theorem C1_outbound_text_escaped (fmt : Option Json → String) (st : ClientState)
    (u s ts : String) :
    handleMessage fmt st (.obj [("type", .str "message"), ("username", .str u),
        ("content", .str s), ("timestamp", .str ts)]) =
      (st,
       [.appendMessage ("message " ++ (if u == st.username then "own" else "other"))
          (messageInnerHtml
            (if !(u == st.username) then
              "<div class=\"message-author\">" ++ u ++ "</div>"
             else "")
            (escapeHtml s) (fmt (some (.str ts)))),
        .scrollMessages]) ∧
    escapeChar '&' = "&amp;".data ∧
    escapeChar '<' = "&lt;".data ∧
    escapeChar '>' = "&gt;".data ∧
    unescapeList (escapeHtml s).data = s.data ∧
    ¬ '<' ∈ (escapeHtml s).data ∧
    ¬ '>' ∈ (escapeHtml s).data := by
  refine ⟨?_, by decide, by decide, by decide, unescape_escape s.data,
    lt_not_mem_escapeList s.data, gt_not_mem_escapeList s.data⟩
  simp +decide [handleMessage, displayMessage, Json.getField, lookupField, strictEqStr,
    displayStr, displayStrJ]

/-- C2: the close handler schedules exactly one timer, whose callback
re-runs the full connection sequence and whose delay is 3000 ms; the
delay is read off the handler's effects independently of any state, so
the n-th close is followed by a reconnect attempt exactly 3 seconds
later for every n — no backoff, no retry cap. -/
theorem C2_reconnect_fixed_three_seconds :
    (∀ st : ClientState, schedulesOf (ws_onclose st).2 = [(Callback.connectWS, 3000)]) ∧
    (∀ (fmt : Option Json → String) (st : ClientState),
      stepEv fmt st (.timerEv .connectWS) = connectWebSocket st) ∧
    (∀ st : ClientState, reconnectDelay st = 3000) ∧
    (∀ (t0 : Nat) (up : Nat → Nat) (n : Nat),
      attemptTime t0 up (n + 1) = attemptTime t0 up n + up n + 3000) :=
  ⟨fun _ => rfl, fun _ _ => rfl, fun _ => rfl, fun _ _ _ => rfl⟩

/-- C3 counterexample: attempting to send the (nonempty) message
"hello" while disconnected produces no effects at all — in particular
no blocking alert, contradicting the claim that the send path alerts
when disconnected. -/
theorem C3_send_disconnected_silent :
    (sendMessage discState "hello" "2024-01-01T00:00:00Z").2 = [] := rfl

/-- C3 amended: while disconnected, the join path raises a blocking
alert (and an empty username always alerts), but the send path returns
silently with no alert and no other effect. -/
theorem C3_alerts_amended (st : ClientState) (u v now : String)
    (hws : st.wsReady = false) :
    (¬ jsTrim u = "" → joinChat st u now =
        (st, [.alert "Not connected to server. Please wait and try again."])) ∧
    (jsTrim u = "" → joinChat st u now = (st, [.alert "Please enter a username"])) ∧
    sendMessage st v now = (st, []) := by
  refine ⟨fun h => ?_, fun h => ?_, ?_⟩
  · simp [joinChat, hws, h]
  · simp [joinChat, h]
  · simp [sendMessage, hws]

/-- Concrete instance of the amended C3 at a disconnected state. -/
theorem C3_alerts_amended_witness :
    joinChat discState "bob" "T0" =
      (discState, [.alert "Not connected to server. Please wait and try again."]) ∧
    sendMessage discState "hi" "T0" = (discState, []) :=
  ⟨(C3_alerts_amended discState "bob" "hi" "T0" rfl).1 (by decide),
   (C3_alerts_amended discState "bob" "hi" "T0" rfl).2.2⟩

theorem sendTypingStatus_fst (st : ClientState) (b : Bool) :
    (sendTypingStatus st b).1 = st := by
  unfold sendTypingStatus
  split <;> rfl

theorem handleMessage_fst (fmt : Option Json → String) (st : ClientState) (d : Json) :
    (handleMessage fmt st d).1 = st := by
  simp only [handleMessage]
  split_ifs <;> rfl

/-- Every single event step preserves the debounce invariant. -/
theorem typingInv_stepEv (fmt : Option Json → String) (st : ClientState) (e : UiEvent)
    (h : TypingInv st) : TypingInv (stepEv fmt st e).1 := by
  cases e with
  | wsOpenEv => simpa [stepEv, ws_onopen, TypingInv] using h
  | wsCloseEv => simpa [stepEv, ws_onclose, TypingInv] using h
  | wsErrorEv => simpa [stepEv, ws_onerror, TypingInv] using h
  | wsMessageEv raw =>
    simp only [stepEv, ws_onmessage]
    cases hp : parseJson raw with
    | none => simpa [TypingInv] using h
    | some d => simpa [TypingInv, handleMessage_fst] using h
  | joinClick u now =>
    simp only [stepEv, joinChat]
    split_ifs <;> simpa [TypingInv] using h
  | inputEvent =>
    simp only [stepEv, onInput]
    split <;> simp [TypingInv, sendTypingStatus_fst]
  | enterKey v now =>
    simp only [stepEv, sendMessage]
    split_ifs with h1 h2
    · exact h
    · simp [TypingInv, sendTypingStatus_fst]
    · exact h
  | timerEv cb =>
    cases cb with
    | connectWS => simpa [stepEv, connectWebSocket, TypingInv] using h
    | typingFire g =>
      simp only [stepEv, fireTyping]
      split
      · simp [TypingInv, typingTimeoutBody, sendTypingStatus_fst]
      · exact h

/-- The debounce invariant holds along every event sequence. -/
theorem typingInv_runEvents (fmt : Option Json → String) (st : ClientState)
    (es : List UiEvent) (h : TypingInv st) : TypingInv (runEvents fmt st es).1 := by
  induction es generalizing st with
  | nil => simpa [runEvents] using h
  | cons e es ih =>
    simp only [runEvents]
    exact ih _ (typingInv_stepEv fmt st e h)

/-- C4: with the socket open, the first keystroke of a burst flips the
typing flag and sends typing=true while scheduling a 1-second debounce
timer; each further keystroke sends nothing, cancels the pending timer
(the superseded generation fires as a no-op) and schedules a fresh one;
when the live timer fires, typing=false is sent and the flag is reset;
and along any event sequence the flag is set only while a debounce
timer is pending. -/
theorem C4_typing_debounce (fmt : Option Json → String) (st : ClientState)
    (hws : st.wsReady = true) :
    (st.isTyping = false →
      onInput st =
        ({ st with isTyping := true, typingGen := st.typingGen + 1, typingPending := true },
         [.send (.obj [("type", .str "typing"), ("username", .str st.username),
                       ("typing", .bool true)]),
          .schedule (.typingFire (st.typingGen + 1)) 1000])) ∧
    (st.isTyping = true →
      onInput st =
        ({ st with typingGen := st.typingGen + 1, typingPending := true },
         [.schedule (.typingFire (st.typingGen + 1)) 1000])) ∧
    (∀ g, ¬ g = st.typingGen → fireTyping st g = (st, [])) ∧
    (st.typingPending = true →
      fireTyping st st.typingGen =
        ({ st with isTyping := false, typingPending := false },
         [.send (.obj [("type", .str "typing"), ("username", .str st.username),
                       ("typing", .bool false)])])) ∧
    (∀ es, TypingInv st → TypingInv (runEvents fmt st es).1) := by
  refine ⟨fun h => ?_, fun h => ?_, fun g hg => ?_, fun hp => ?_,
    fun es h => typingInv_runEvents fmt st es h⟩
  · simp [onInput, sendTypingStatus, h, hws]
  · simp [onInput, h]
  · simp [fireTyping, hg]
  · simp [fireTyping, hp, typingTimeoutBody, sendTypingStatus, hws]

/-- Concrete instance of C4: in an open, typing, timer-pending state
the live debounce timer fires, resets the flag and sends typing=false. -/
theorem C4_typing_debounce_witness :
    fireTyping { openState with isTyping := true, typingPending := true } 0 =
      ({ openState with isTyping := false, typingPending := false },
       [.send (.obj [("type", .str "typing"), ("username", .str "alice"),
                     ("typing", .bool false)])]) :=
  (C4_typing_debounce fmt0 { openState with isTyping := true, typingPending := true }
    rfl).2.2.2.1 rfl

theorem no_send_handleTypingIndicator (st : ClientState) (data : Json) (p : Json) :
    ¬ Effect.send p ∈ handleTypingIndicator st data := by
  simp only [handleTypingIndicator]
  split_ifs <;> simp

/-- The inbound dispatcher only mutates the DOM: it never sends. -/
theorem no_send_handleMessage (fmt : Option Json → String) (st : ClientState)
    (data : Json) (p : Json) : ¬ Effect.send p ∈ (handleMessage fmt st data).2 := by
  simp only [handleMessage]
  split_ifs <;>
    simp [displayMessage, displaySystemMessage, updateUsersCount, no_send_handleTypingIndicator]

theorem sends_sendTypingStatus (st : ClientState) (b : Bool) (p : Json)
    (h : Effect.send p ∈ (sendTypingStatus st b).2) :
    p = .obj [("type", .str "typing"), ("username", .str st.username),
              ("typing", .bool b)] := by
  unfold sendTypingStatus at h
  split at h <;> simp_all

theorem sends_onInput (st : ClientState) (p : Json)
    (h : Effect.send p ∈ (onInput st).2) :
    p = .obj [("type", .str "typing"), ("username", .str st.username),
              ("typing", .bool true)] := by
  simp only [onInput, List.mem_append] at h
  rcases h with h | h
  · split at h
    · simpa using sends_sendTypingStatus { st with isTyping := true } true p h
    · simp at h
  · simp at h

theorem sends_sendMessage (st : ClientState) (v now : String) (p : Json)
    (h : Effect.send p ∈ (sendMessage st v now).2) : WellFormedFrame p := by
  simp only [sendMessage] at h
  split_ifs at h with h1 h2
  · simp at h
  · simp only [List.mem_append] at h
    rcases h with h | h
    · simp at h
      exact Or.inr (Or.inl ⟨st.username, jsTrim v, now, h⟩)
    · have := sends_sendTypingStatus { st with isTyping := false } false p h
      simp only at this
      exact Or.inr (Or.inr ⟨st.username, false, this⟩)
  · simp at h
    exact Or.inr (Or.inl ⟨st.username, jsTrim v, now, h⟩)

theorem sends_joinChat (st : ClientState) (u now : String) (p : Json)
    (h : Effect.send p ∈ (joinChat st u now).2) :
    p = .obj [("type", .str "join"), ("username", .str (jsTrim u)),
              ("timestamp", .str now)] := by
  simp only [joinChat] at h
  split_ifs at h <;> simp_all

/-- Every send emitted by any single event step is one of the three
outbound frame shapes. -/
theorem wf_sends_stepEv (fmt : Option Json → String) (st : ClientState) (e : UiEvent)
    (p : Json) (h : Effect.send p ∈ (stepEv fmt st e).2) : WellFormedFrame p := by
  cases e with
  | wsOpenEv => simp [stepEv, ws_onopen, updateConnectionStatus] at h
  | wsCloseEv => simp [stepEv, ws_onclose, updateConnectionStatus] at h
  | wsErrorEv => simp [stepEv, ws_onerror, updateConnectionStatus] at h
  | wsMessageEv raw =>
    simp only [stepEv, ws_onmessage] at h
    cases hp : parseJson raw with
    | none => rw [hp] at h; simp at h
    | some d =>
      rw [hp] at h
      exact absurd (by simpa using h) (no_send_handleMessage fmt st d p)
  | joinClick u now =>
    exact Or.inl ⟨jsTrim u, now, sends_joinChat st u now p h⟩
  | inputEvent =>
    exact Or.inr (Or.inr ⟨st.username, true, sends_onInput st p h⟩)
  | enterKey v now => exact sends_sendMessage st v now p h
  | timerEv cb =>
    cases cb with
    | connectWS => simp [stepEv, connectWebSocket] at h
    | typingFire g =>
      simp only [stepEv, fireTyping, typingTimeoutBody] at h
      split at h
      · exact Or.inr (Or.inr ⟨st.username, false,
          by simpa using sends_sendTypingStatus _ false p h⟩)
      · simp at h

/-- C5: every frame the client ever sends, along any event sequence, is
a JSON object tagged by its `type` field with exactly the interface
table's fields — join with username and timestamp, message with
username, content and timestamp, or typing with username and a boolean
typing field. -/
theorem C5_outbound_frames_tagged (fmt : Option Json → String) (st : ClientState)
    (es : List UiEvent) (p : Json)
    (h : Effect.send p ∈ (runEvents fmt st es).2) : WellFormedFrame p := by
  induction es generalizing st with
  | nil => simp [runEvents] at h
  | cons e es ih =>
    simp only [runEvents, List.mem_append] at h
    rcases h with h | h
    · exact wf_sends_stepEv fmt st e p h
    · exact ih _ h

/-- Concrete instance of C5: the frame sent on the first keystroke of a
joined, connected session is the typing frame of the table. -/
theorem C5_outbound_frames_tagged_witness :
    WellFormedFrame (.obj [("type", .str "typing"), ("username", .str "alice"),
                           ("typing", .bool true)]) :=
  C5_outbound_frames_tagged fmt0 openState [.inputEvent] _ (List.Mem.head _)

/-- C6: malformed inbound payloads are unguarded — the string
"not json!" makes `JSON.parse` throw inside `ws.onmessage`, whatever
the state, and the parse-and-dispatch path surfaces the error rather
than handling it. -/
theorem C6_malformed_inbound_raises (fmt : Option Json → String) (st : ClientState) :
    ws_onmessage fmt st "not json!" =
      .error "SyntaxError: JSON.parse: unexpected token" := rfl

/-- C7: a chat message or typing status sent while the socket is not
open is dropped on the spot — no effect, no state change — and since
the state is untouched, every later event sequence (reconnects
included) behaves exactly as if the send had never been attempted, so
the dropped frame is never transmitted later. -/
theorem C7_disconnected_send_dropped (fmt : Option Json → String) (st : ClientState)
    (v now : String) (b : Bool) (hws : st.wsReady = false) :
    sendMessage st v now = (st, []) ∧
    sendTypingStatus st b = (st, []) ∧
    (∀ es, runEvents fmt (sendMessage st v now).1 es = runEvents fmt st es) := by
  have h1 : sendMessage st v now = (st, []) := by simp [sendMessage, hws]
  exact ⟨h1, by simp [sendTypingStatus, hws], fun es => by rw [h1]⟩

/-- Concrete instance of C7 at a disconnected state. -/
theorem C7_disconnected_send_dropped_witness :
    sendMessage discState "hello" "T0" = (discState, []) ∧
    runEvents fmt0 (sendMessage discState "hello" "T0").1 [.wsOpenEv] =
      runEvents fmt0 discState [.wsOpenEv] :=
  ⟨(C7_disconnected_send_dropped fmt0 discState "hello" "T0" true rfl).1,
   (C7_disconnected_send_dropped fmt0 discState "hello" "T0" true rfl).2.2 [.wsOpenEv]⟩

/-- C8: an inbound frame whose `type` is none of message, join, leave,
users_count or typing falls through the switch with no default: no
effect is produced and the state is unchanged. -/
theorem C8_unknown_type_noop (fmt : Option Json → String) (st : ClientState) (data : Json)
    (h1 : strictEqStr (data.getField "type") "message" = false)
    (h2 : strictEqStr (data.getField "type") "join" = false)
    (h3 : strictEqStr (data.getField "type") "leave" = false)
    (h4 : strictEqStr (data.getField "type") "users_count" = false)
    (h5 : strictEqStr (data.getField "type") "typing" = false) :
    handleMessage fmt st data = (st, []) := by
  simp [handleMessage, h1, h2, h3, h4, h5]

/-- Concrete instance of C8 on a frame of unknown type "ping". -/
theorem C8_unknown_type_noop_witness :
    handleMessage fmt0 discState (.obj [("type", .str "ping")]) = (discState, []) :=
  C8_unknown_type_noop fmt0 discState (.obj [("type", .str "ping")]) rfl rfl rfl rfl rfl

theorem strictEqStr_of_eq_true (j : Option Json) (a b : String)
    (h : strictEqStr j a = true) : strictEqStr j b = (a == b) := by
  unfold strictEqStr at *
  cases j with
  | none => simp at h
  | some v => cases v <;> simp_all

/-- C9: an inbound typing frame whose username strictly equals the
local username leaves the typing-indicator element alone — the
indicator handler produces nothing, and the whole dispatch of such a
frame is a no-op. -/
theorem C9_self_typing_ignored (fmt : Option Json → String) (st : ClientState)
    (data : Json)
    (h : strictEqStr (data.getField "username") st.username = true) :
    handleTypingIndicator st data = [] ∧
    (strictEqStr (data.getField "type") "typing" = true →
      handleMessage fmt st data = (st, [])) := by
  have hti : handleTypingIndicator st data = [] := by simp [handleTypingIndicator, h]
  refine ⟨hti, fun ht => ?_⟩
  simp +decide [handleMessage, strictEqStr_of_eq_true _ _ _ ht, hti]

/-- Concrete instance of C9: a typing frame echoing the local username
"alice" does nothing. -/
theorem C9_self_typing_ignored_witness :
    handleTypingIndicator openState
      (.obj [("type", .str "typing"), ("username", .str "alice"),
             ("typing", .bool true)]) = [] :=
  (C9_self_typing_ignored fmt0 openState
    (.obj [("type", .str "typing"), ("username", .str "alice"),
           ("typing", .bool true)]) rfl).1

/-- C10: join and leave system messages interpolate the frame's
username into the markup verbatim with no escaping, and for a username
containing markup the rendered HTML differs from what escaping would
have produced. -/
theorem C10_system_message_unescaped (fmt : Option Json → String) (st : ClientState)
    (u : String) :
    (handleMessage fmt st (.obj [("type", .str "join"), ("username", .str u)])).2 =
      [.appendMessage "message system"
        ("<div class=\"message-content\">" ++ (u ++ " joined the chat") ++ "</div>"),
       .scrollMessages] ∧
    (handleMessage fmt st (.obj [("type", .str "leave"), ("username", .str u)])).2 =
      [.appendMessage "message system"
        ("<div class=\"message-content\">" ++ (u ++ " left the chat") ++ "</div>"),
       .scrollMessages] ∧
    ("<div class=\"message-content\">" ++ ("<b>x</b>" ++ " joined the chat") ++ "</div>" ≠
     "<div class=\"message-content\">" ++
       (escapeHtml "<b>x</b>" ++ " joined the chat") ++ "</div>") := by
  refine ⟨?_, ?_, by decide⟩ <;>
    simp +decide [handleMessage, displaySystemMessage, Json.getField, lookupField,
      strictEqStr, displayStr, displayStrJ]

end ChatApp
